import Mathlib

/-!
Shallow embedding of the Stirling PDF MCP server (src/index.ts).

Strings are modelled as `List Char`, binary buffers as `List Nat` (each
element a byte value, below 256).  The asynchronous HTTP layer (axios) is
modelled by a transport function supplied to each handler, whose outcome
mirrors the axios contract: a 2xx response resolves with the raw body
bytes, everything else rejects with an axios-style error object.  Each
handler additionally records the list of API calls it issued, so that
properties of the form "no network call is made" are statable.
-/

-- === UTILITY FUNCTIONS (src/index.ts lines 33-110) ===

/-- Whitespace characters removed by the JavaScript String.prototype.trim
(ASCII whitespace, NBSP, BOM, and the line and paragraph separators). -/
def isJsSpace (c : Char) : Bool :=
  c = ' ' || c.toNat = 9 || c.toNat = 10 || c.toNat = 11 || c.toNat = 12 ||
  c.toNat = 13 || c.toNat = 160 || c.toNat = 0x1680 ||
  (0x2000 ≤ c.toNat && c.toNat ≤ 0x200A) || c.toNat = 0x2028 ||
  c.toNat = 0x2029 || c.toNat = 0x202F || c.toNat = 0x205F ||
  c.toNat = 0x3000 || c.toNat = 0xFEFF

/-- Model of the JavaScript value.trim() on a list of characters. -/
def jsTrim (cs : List Char) : List Char :=
  ((cs.dropWhile isJsSpace).reverse.dropWhile isJsSpace).reverse

/-- Model of formatError (src/index.ts line 36): errors are carried as
their message text, and the displayed text prefixes an error marker. -/
def formatError (msg : List Char) : List Char :=
  "❌ Error: ".data ++ msg

/-- Model of validateRequired (src/index.ts line 46): fails when the value
is the empty string or trims to the empty string, otherwise returns the
trimmed value. -/
def validateRequired (value : List Char) (name : List Char) :
    Except (List Char) (List Char) :=
  if value = [] ∨ jsTrim value = [] then
    Except.error (name ++ " is required".data)
  else
    Except.ok (jsTrim value)

-- === BASE64 CODEC ===

/-- Character of the standard base64 alphabet at a given index, as used by
Buffer.toString for the base64 encoding. -/
def b64Char (n : Nat) : Char :=
  Char.ofNat
    (if n < 26 then 65 + n
     else if n < 52 then 97 + (n - 26)
     else if n < 62 then 48 + (n - 52)
     else if n = 62 then 43
     else 47)

/-- Value of a character under the base64 decoding table of the Node
Buffer implementation: the standard alphabet plus the URL-safe aliases
for 62 and 63; every other character is invalid (none). -/
def b64Val (c : Char) : Option Nat :=
  if 65 ≤ c.toNat ∧ c.toNat ≤ 90 then some (c.toNat - 65)
  else if 97 ≤ c.toNat ∧ c.toNat ≤ 122 then some (c.toNat - 97 + 26)
  else if 48 ≤ c.toNat ∧ c.toNat ≤ 57 then some (c.toNat - 48 + 52)
  else if c = '+' ∨ c = '-' then some 62
  else if c = '/' ∨ c = '_' then some 63
  else none

/-- Standard padded base64 encoding of a byte sequence, three bytes at a
time, as produced by buffer.toString with the base64 encoding (no line
wrapping). -/
def b64Encode : List Nat → List Char
  | [] => []
  | [a] => [b64Char (a / 4), b64Char (a % 4 * 16), '=', '=']
  | [a, b] =>
      [b64Char (a / 4), b64Char (a % 4 * 16 + b / 16), b64Char (b % 16 * 4), '=']
  | a :: b :: c :: rest =>
      b64Char (a / 4) :: b64Char (a % 4 * 16 + b / 16) ::
      b64Char (b % 16 * 4 + c / 64) :: b64Char (c % 64) :: b64Encode rest

/-- Sextet collection of the Node base64 decoder: characters outside the
decoding table are skipped, and the first padding character stops the
decoding entirely. -/
def collectSextets : List Char → List Nat
  | [] => []
  | c :: rest =>
      if c = '=' then []
      else
        match b64Val c with
        | some v => v :: collectSextets rest
        | none => collectSextets rest

/-- Byte reconstruction from a sextet sequence: full groups of four yield
three bytes; a trailing group of two or three yields one or two bytes; a
trailing single sextet is dropped. -/
def sextetsToBytes : List Nat → List Nat
  | a :: b :: c :: d :: rest =>
      (a * 4 + b / 16) :: (b % 16 * 16 + c / 4) :: (c % 4 * 64 + d) ::
      sextetsToBytes rest
  | [a, b] => [a * 4 + b / 16]
  | [a, b, c] => [a * 4 + b / 16, b % 16 * 16 + c / 4]
  | _ => []

/-- Model of Buffer.from(text, base64): lenient decoding, never fails. -/
def nodeBase64Decode (cs : List Char) : List Nat :=
  sextetsToBytes (collectSextets cs)

/-- Model of the anchored regex replace in base64ToBuffer (src/index.ts
line 58): a leading prefix of the exact shape data:<mime>;base64, with a
nonempty semicolon-free mime is removed; any other input is unchanged. -/
def stripDataUrl (cs : List Char) : List Char :=
  if cs.take 5 = "data:".data then
    let rest := cs.drop 5
    let mime := rest.takeWhile (fun c => c != ';')
    let after := rest.dropWhile (fun c => c != ';')
    if mime = [] then cs
    else if after.take 8 = ";base64,".data then after.drop 8
    else cs
  else cs

/-- Model of base64ToBuffer (src/index.ts line 56): strip an optional
data URL prefix, then decode leniently. -/
def base64ToBuffer (cs : List Char) : List Nat :=
  nodeBase64Decode (stripDataUrl cs)

/-- Model of bufferToBase64DataUrl (src/index.ts line 108).  The source
declares the media type as an optional parameter defaulting to
application/pdf; the default is made explicit at each call site here. -/
def bufferToBase64DataUrl (buffer : List Nat) (mimeType : List Char) : List Char :=
  "data:".data ++ mimeType ++ ";base64,".data ++ b64Encode buffer

/-- Word characters of the regex class used in convertImagesToPDF. -/
def isWordChar (c : Char) : Bool :=
  (65 ≤ c.toNat && c.toNat ≤ 90) || (97 ≤ c.toNat && c.toNat ≤ 122) ||
  (48 ≤ c.toNat && c.toNat ≤ 57) || c = '_'

/-- Model of the image format detection in convertImagesToPDF (src/index.ts
line 380): the regex match against a leading data:image/<word-chars>;
prefix yields the captured format, and png is used otherwise. -/
def detectImageExt (cs : List Char) : List Char :=
  if cs.take 11 = "data:image/".data then
    let rest := cs.drop 11
    let fmt := rest.takeWhile isWordChar
    let after := rest.dropWhile isWordChar
    if fmt = [] then "png".data
    else if after.take 1 = [';'] then fmt
    else "png".data
  else "png".data

/-- Comma splitting of the JavaScript String.prototype.split used for the
OCR language list; splitting the empty string yields one empty piece. -/
def splitComma : List Char → List (List Char)
  | [] => [[]]
  | c :: rest =>
      match splitComma rest with
      | [] => [[c]]
      | h :: t => if c = ',' then [] :: h :: t else (c :: h) :: t

-- === SPEC-SIDE STRICT DECODER (for comparison with the source) ===

/-- Membership in the strict base64 alphabet (spec section 4.1 speaks of
valid base64 padding and alphabet). -/
def stdB64Char (c : Char) : Bool :=
  (65 ≤ c.toNat && c.toNat ≤ 90) || (97 ≤ c.toNat && c.toNat ≤ 122) ||
  (48 ≤ c.toNat && c.toNat ≤ 57) || c = '+' || c = '/'

/-- Validity of a base64 payload in the strict sense of the spec wording:
alphabet characters followed by at most two padding characters, with a
total length that is a multiple of four. -/
def specValidBase64 (cs : List Char) : Bool :=
  let body := cs.takeWhile stdB64Char
  let pad := cs.drop body.length
  decide (cs.length % 4 = 0) &&
  (decide (pad = []) || decide (pad = ['=']) || decide (pad = ['=', '='])) &&
  !(decide (cs = []))

/-- Decoder following the spec wording of section 4.1 (decode fails with a
DecodeError when the remaining text is not valid base64 padding or
alphabet); written only to be compared with the decoder of the source. -/
def base64ToBufferSpec (cs : List Char) : Option (List Nat) :=
  let rest := stripDataUrl cs
  if specValidBase64 rest then some (nodeBase64Decode rest) else none

-- === MULTIPART AND HTTP MODEL ===

/-- One part of a multipart form body: either a textual field or a binary
attachment with a filename.  Order of parts is the order of the append
calls in the source. -/
inductive FormPart where
  | field : List Char → List Char → FormPart
  | file : List Char → List Nat → List Char → FormPart
deriving DecidableEq, Repr

/-- Response object attached to an axios error for an HTTP-level failure:
status code, status text and the body decoded as text (none when the
response carries no data field). -/
structure AxiosResponse where
  status : Nat
  statusText : List Char
  data : Option (List Char)
deriving DecidableEq, Repr

/-- Error object rejected by the modelled axios post: axios-made errors
carry an optional response; anything else is an arbitrary thrown error
carried by its message. -/
structure AxiosError where
  isAxiosError : Bool
  response : Option AxiosResponse
  message : List Char
deriving DecidableEq, Repr

/-- Outcome of the modelled axios post call. -/
inductive AxiosOutcome where
  | ok : List Nat → AxiosOutcome
  | err : AxiosError → AxiosOutcome
deriving DecidableEq, Repr

/-- A transport is the behaviour of the axios post for a given endpoint
and form body; handlers are parameterized by it so that stubbed upstreams
are expressible. -/
def Transport : Type :=
  List Char → List FormPart → AxiosOutcome

/-- Model of callStirlingAPI (src/index.ts lines 65-103): a resolved post
yields the response bytes; an axios error is converted into a message
built from the status (or the word unknown when absent or zero, the
falsy fallback of the source), and the body text when
nonempty, the status text otherwise (with a fixed fallback); any other
error is rethrown unchanged. -/
def callStirlingAPI (t : Transport) (endpoint : List Char)
    (formData : List FormPart) : Except (List Char) (List Nat) :=
  match t endpoint formData with
  | AxiosOutcome.ok bytes => Except.ok bytes
  | AxiosOutcome.err e =>
      if e.isAxiosError then
        let status : List Char :=
          match e.response with
          | some r => if r.status = 0 then "unknown".data else (Nat.repr r.status).data
          | none => "unknown".data
        let statusText : List Char :=
          match e.response with
          | some r => if r.statusText = [] then "Unknown Error".data else r.statusText
          | none => "Unknown Error".data
        let errorData : List Char :=
          match e.response with
          | some r =>
              match r.data with
              | some d => d
              | none => []
          | none => []
        Except.error ("Stirling PDF API returned ".data ++ status ++ ": ".data ++
          (if errorData = [] then statusText else errorData))
      else Except.error e.message

/-- Result of one handler invocation: the returned text together with the
list of API calls that were issued (endpoint and form body of each). -/
structure HandlerResult where
  text : List Char
  calls : List (List Char × List FormPart)
deriving DecidableEq, Repr

/-- File parts appended by the forEach loop of mergePDFs, starting at a
given zero-based index. -/
def pdfParts : Nat → List (List Char) → List FormPart
  | _, [] => []
  | i, p :: rest =>
      FormPart.file "fileInput".data (base64ToBuffer p)
        ("file".data ++ (Nat.repr (i + 1)).data ++ ".pdf".data) ::
      pdfParts (i + 1) rest

/-- File parts appended by the forEach loop of convertImagesToPDF,
starting at a given zero-based index. -/
def imageParts : Nat → List (List Char) → List FormPart
  | _, [] => []
  | i, img :: rest =>
      FormPart.file "fileInput".data (base64ToBuffer img)
        ("image".data ++ (Nat.repr (i + 1)).data ++ ".".data ++ detectImageExt img) ::
      imageParts (i + 1) rest

-- === TOOL IMPLEMENTATIONS (src/index.ts lines 112-440) ===

/-- Model of mergePDFs (src/index.ts line 117). -/
def mergePDFs (t : Transport) (pdfFiles : List (List Char))
    (sortType : List Char) : HandlerResult :=
  if pdfFiles.length < 2 then
    ⟨formatError "At least 2 PDF files are required for merging".data, []⟩
  else
    let formData := pdfParts 0 pdfFiles ++ [FormPart.field "sortType".data sortType]
    let ep := "/api/v1/general/merge-pdfs".data
    match callStirlingAPI t ep formData with
    | Except.ok buf =>
        ⟨"✅ Successfully merged ".data ++ (Nat.repr pdfFiles.length).data ++
          " PDF files\n\n📄 Result (base64 data URL):\n".data ++
          bufferToBase64DataUrl buf "application/pdf".data, [(ep, formData)]⟩
    | Except.error e => ⟨formatError e, [(ep, formData)]⟩

/-- Model of splitPDF (src/index.ts line 152). -/
def splitPDF (t : Transport) (pdfFile : List Char)
    (pageNumbers : List Char) : HandlerResult :=
  match validateRequired pdfFile "pdfFile".data with
  | Except.error e => ⟨formatError e, []⟩
  | Except.ok _ =>
  match validateRequired pageNumbers "pageNumbers".data with
  | Except.error e => ⟨formatError e, []⟩
  | Except.ok _ =>
    let formData := [FormPart.file "fileInput".data (base64ToBuffer pdfFile) "input.pdf".data,
                     FormPart.field "pageNumbers".data pageNumbers]
    let ep := "/api/v1/general/split-pages".data
    match callStirlingAPI t ep formData with
    | Except.ok buf =>
        ⟨"✅ Successfully split PDF at pages: ".data ++ pageNumbers ++
          "\n\n📦 Result (ZIP file as base64 data URL):\n".data ++
          bufferToBase64DataUrl buf "application/zip".data, [(ep, formData)]⟩
    | Except.error e => ⟨formatError e, [(ep, formData)]⟩

/-- Model of compressPDF (src/index.ts line 180). -/
def compressPDF (t : Transport) (pdfFile : List Char)
    (optimizeLevel : List Char) : HandlerResult :=
  match validateRequired pdfFile "pdfFile".data with
  | Except.error e => ⟨formatError e, []⟩
  | Except.ok _ =>
    let formData := [FormPart.file "fileInput".data (base64ToBuffer pdfFile) "input.pdf".data,
                     FormPart.field "optimizeLevel".data optimizeLevel,
                     FormPart.field "fastWebView".data "false".data]
    let ep := "/api/v1/misc/compress-pdf".data
    match callStirlingAPI t ep formData with
    | Except.ok buf =>
        ⟨"✅ Successfully compressed PDF (optimization level: ".data ++ optimizeLevel ++
          ")\n\n📄 Result (base64 data URL):\n".data ++
          bufferToBase64DataUrl buf "application/pdf".data, [(ep, formData)]⟩
    | Except.error e => ⟨formatError e, [(ep, formData)]⟩

/-- Model of convertPDFToImages (src/index.ts line 208). -/
def convertPDFToImages (t : Transport) (pdfFile : List Char)
    (imageFormat : List Char) (dpi : List Char) : HandlerResult :=
  match validateRequired pdfFile "pdfFile".data with
  | Except.error e => ⟨formatError e, []⟩
  | Except.ok _ =>
    let formData := [FormPart.file "fileInput".data (base64ToBuffer pdfFile) "input.pdf".data,
                     FormPart.field "imageFormat".data imageFormat,
                     FormPart.field "dpi".data dpi,
                     FormPart.field "colorType".data "color".data,
                     FormPart.field "singleOrMultiple".data "multiple".data]
    let ep := "/api/v1/convert/pdf/img".data
    match callStirlingAPI t ep formData with
    | Except.ok buf =>
        ⟨"✅ Successfully converted PDF to ".data ++ imageFormat ++
          " images\n\n📦 Result (ZIP file as base64 data URL):\n".data ++
          bufferToBase64DataUrl buf "application/zip".data, [(ep, formData)]⟩
    | Except.error e => ⟨formatError e, [(ep, formData)]⟩

/-- Model of rotatePDF (src/index.ts line 239). -/
def rotatePDF (t : Transport) (pdfFile : List Char) (angle : List Char)
    (pageNumbers : List Char) : HandlerResult :=
  match validateRequired pdfFile "pdfFile".data with
  | Except.error e => ⟨formatError e, []⟩
  | Except.ok _ =>
    let formData := [FormPart.file "fileInput".data (base64ToBuffer pdfFile) "input.pdf".data,
                     FormPart.field "angle".data angle,
                     FormPart.field "pageNumbers".data pageNumbers]
    let ep := "/api/v1/general/rotate-pdf".data
    match callStirlingAPI t ep formData with
    | Except.ok buf =>
        ⟨"✅ Successfully rotated PDF pages by ".data ++ angle ++
          "°\n\n📄 Result (base64 data URL):\n".data ++
          bufferToBase64DataUrl buf "application/pdf".data, [(ep, formData)]⟩
    | Except.error e => ⟨formatError e, [(ep, formData)]⟩

/-- Model of addWatermark (src/index.ts line 268). -/
def addWatermark (t : Transport) (pdfFile : List Char)
    (watermarkText : List Char) (fontSize : List Char) (opacity : List Char)
    (rotation : List Char) : HandlerResult :=
  match validateRequired pdfFile "pdfFile".data with
  | Except.error e => ⟨formatError e, []⟩
  | Except.ok _ =>
  match validateRequired watermarkText "watermarkText".data with
  | Except.error e => ⟨formatError e, []⟩
  | Except.ok _ =>
    let formData := [FormPart.file "fileInput".data (base64ToBuffer pdfFile) "input.pdf".data,
                     FormPart.field "watermarkType".data "text".data,
                     FormPart.field "watermarkText".data watermarkText,
                     FormPart.field "alphabet".data "roman".data,
                     FormPart.field "fontSize".data fontSize,
                     FormPart.field "rotation".data rotation,
                     FormPart.field "opacity".data opacity,
                     FormPart.field "widthSpacer".data "50".data,
                     FormPart.field "heightSpacer".data "50".data,
                     FormPart.field "customColor".data "#000000".data]
    let ep := "/api/v1/security/add-watermark".data
    match callStirlingAPI t ep formData with
    | Except.ok buf =>
        ⟨"✅ Successfully added watermark: \"".data ++ watermarkText ++
          "\"\n\n📄 Result (base64 data URL):\n".data ++
          bufferToBase64DataUrl buf "application/pdf".data, [(ep, formData)]⟩
    | Except.error e => ⟨formatError e, [(ep, formData)]⟩

/-- Model of removePages (src/index.ts line 307). -/
def removePages (t : Transport) (pdfFile : List Char)
    (pagesToRemove : List Char) : HandlerResult :=
  match validateRequired pdfFile "pdfFile".data with
  | Except.error e => ⟨formatError e, []⟩
  | Except.ok _ =>
  match validateRequired pagesToRemove "pagesToRemove".data with
  | Except.error e => ⟨formatError e, []⟩
  | Except.ok _ =>
    let formData := [FormPart.file "fileInput".data (base64ToBuffer pdfFile) "input.pdf".data,
                     FormPart.field "pagesToDelete".data pagesToRemove]
    let ep := "/api/v1/general/remove-pages".data
    match callStirlingAPI t ep formData with
    | Except.ok buf =>
        ⟨"✅ Successfully removed pages: ".data ++ pagesToRemove ++
          "\n\n📄 Result (base64 data URL):\n".data ++
          bufferToBase64DataUrl buf "application/pdf".data, [(ep, formData)]⟩
    | Except.error e => ⟨formatError e, [(ep, formData)]⟩

/-- Model of extractImages (src/index.ts line 335). -/
def extractImages (t : Transport) (pdfFile : List Char)
    (format : List Char) : HandlerResult :=
  match validateRequired pdfFile "pdfFile".data with
  | Except.error e => ⟨formatError e, []⟩
  | Except.ok _ =>
    let formData := [FormPart.file "fileInput".data (base64ToBuffer pdfFile) "input.pdf".data,
                     FormPart.field "format".data format]
    let ep := "/api/v1/general/extract-images".data
    match callStirlingAPI t ep formData with
    | Except.ok buf =>
        ⟨"✅ Successfully extracted images from PDF\n\n📦 Result (ZIP file as base64 data URL):\n".data ++
          bufferToBase64DataUrl buf "application/zip".data, [(ep, formData)]⟩
    | Except.error e => ⟨formatError e, [(ep, formData)]⟩

/-- Model of convertImagesToPDF (src/index.ts line 362). -/
def convertImagesToPDF (t : Transport) (imageFiles : List (List Char))
    (fitOption : List Char) (colorType : List Char) : HandlerResult :=
  if imageFiles.length < 1 then
    ⟨formatError "At least 1 image file is required".data, []⟩
  else
    let formData := imageParts 0 imageFiles ++
                    [FormPart.field "fitOption".data fitOption,
                     FormPart.field "colorType".data colorType,
                     FormPart.field "autoRotate".data "false".data]
    let ep := "/api/v1/convert/img/pdf".data
    match callStirlingAPI t ep formData with
    | Except.ok buf =>
        ⟨"✅ Successfully converted ".data ++ (Nat.repr imageFiles.length).data ++
          " images to PDF\n\n📄 Result (base64 data URL):\n".data ++
          bufferToBase64DataUrl buf "application/pdf".data, [(ep, formData)]⟩
    | Except.error e => ⟨formatError e, [(ep, formData)]⟩

/-- Model of ocrPDF (src/index.ts line 402). -/
def ocrPDF (t : Transport) (pdfFile : List Char) (languages : List Char)
    (sidecar : List Char) (deskew : List Char) (clean : List Char)
    (cleanFinal : List Char) (ocrType : List Char) : HandlerResult :=
  match validateRequired pdfFile "pdfFile".data with
  | Except.error e => ⟨formatError e, []⟩
  | Except.ok _ =>
    let langFields := (splitComma languages).map
      (fun l => FormPart.field "languages".data (jsTrim l))
    let formData := [FormPart.file "fileInput".data (base64ToBuffer pdfFile) "input.pdf".data] ++
                    langFields ++
                    [FormPart.field "sidecar".data sidecar,
                     FormPart.field "deskew".data deskew,
                     FormPart.field "clean".data clean,
                     FormPart.field "cleanFinal".data cleanFinal,
                     FormPart.field "ocrType".data ocrType]
    let ep := "/api/v1/misc/ocr-pdf".data
    match callStirlingAPI t ep formData with
    | Except.ok buf =>
        ⟨"✅ Successfully performed OCR on PDF\nLanguages: ".data ++ languages ++
          "\n\n📄 Result (base64 data URL):\n".data ++
          bufferToBase64DataUrl buf "application/pdf".data, [(ep, formData)]⟩
    | Except.error e => ⟨formatError e, [(ep, formData)]⟩

-- === DISPATCHER (src/index.ts lines 704-865) ===

/-- Value of one entry of the untyped argument mapping of a tool call. -/
inductive ArgVal where
  | str : List Char → ArgVal
  | arr : List (List Char) → ArgVal
deriving DecidableEq, Repr

/-- The untyped argument mapping of a tool call. -/
def ArgMap : Type :=
  List Char → Option ArgVal

/-- String argument extraction of the dispatcher: the pattern
(args?.name as string) with a fallback default applied to the empty
string and to an absent value (both falsy). -/
def getStr (args : ArgMap) (name : List Char) (dflt : List Char) : List Char :=
  match args name with
  | some (ArgVal.str s) => if s = [] then dflt else s
  | _ => dflt

/-- Array argument extraction of the dispatcher: the pattern
(args?.name as string array) with the empty array as fallback. -/
def getArr (args : ArgMap) (name : List Char) : List (List Char) :=
  match args name with
  | some (ArgVal.arr a) => a
  | _ => []

/-- Response envelope of the tool call transport: a single text content
block, flagged as an error only by the catch branch of the dispatcher. -/
structure Envelope where
  text : List Char
  isError : Bool
deriving DecidableEq, Repr

/-- The ten registered tool names, in declaration order. -/
def toolNames : List (List Char) :=
  ["merge_pdfs".data, "split_pdf".data, "compress_pdf".data,
   "convert_pdf_to_images".data, "rotate_pdf".data, "add_watermark".data,
   "remove_pages".data, "extract_images".data, "convert_images_to_pdf".data,
   "ocr_pdf".data]

/-- Model of the CallToolRequestSchema handler (src/index.ts lines
704-865): dispatch on the tool name, extract and default each declared
argument, call the handler and wrap its text; the default branch throws
an unknown tool error which the surrounding catch converts into an
error-flagged envelope.  The issued API calls are returned alongside. -/
def handleCallTool (t : Transport) (name : List Char) (args : ArgMap) :
    Envelope × List (List Char × List FormPart) :=
  if name = "merge_pdfs".data then
    let r := mergePDFs t (getArr args "pdfFiles".data)
      (getStr args "sortType".data "orderProvided".data)
    (⟨r.text, false⟩, r.calls)
  else if name = "split_pdf".data then
    let r := splitPDF t (getStr args "pdfFile".data [])
      (getStr args "pageNumbers".data [])
    (⟨r.text, false⟩, r.calls)
  else if name = "compress_pdf".data then
    let r := compressPDF t (getStr args "pdfFile".data [])
      (getStr args "optimizeLevel".data "2".data)
    (⟨r.text, false⟩, r.calls)
  else if name = "convert_pdf_to_images".data then
    let r := convertPDFToImages t (getStr args "pdfFile".data [])
      (getStr args "imageFormat".data "png".data)
      (getStr args "dpi".data "300".data)
    (⟨r.text, false⟩, r.calls)
  else if name = "rotate_pdf".data then
    let r := rotatePDF t (getStr args "pdfFile".data [])
      (getStr args "angle".data "90".data)
      (getStr args "pageNumbers".data "all".data)
    (⟨r.text, false⟩, r.calls)
  else if name = "add_watermark".data then
    let r := addWatermark t (getStr args "pdfFile".data [])
      (getStr args "watermarkText".data [])
      (getStr args "fontSize".data "30".data)
      (getStr args "opacity".data "0.5".data)
      (getStr args "rotation".data "45".data)
    (⟨r.text, false⟩, r.calls)
  else if name = "remove_pages".data then
    let r := removePages t (getStr args "pdfFile".data [])
      (getStr args "pagesToRemove".data [])
    (⟨r.text, false⟩, r.calls)
  else if name = "extract_images".data then
    let r := extractImages t (getStr args "pdfFile".data [])
      (getStr args "format".data "png".data)
    (⟨r.text, false⟩, r.calls)
  else if name = "convert_images_to_pdf".data then
    let r := convertImagesToPDF t (getArr args "imageFiles".data)
      (getStr args "fitOption".data "fillPage".data)
      (getStr args "colorType".data "color".data)
    (⟨r.text, false⟩, r.calls)
  else if name = "ocr_pdf".data then
    let r := ocrPDF t (getStr args "pdfFile".data [])
      (getStr args "languages".data "eng".data)
      (getStr args "sidecar".data "false".data)
      (getStr args "deskew".data "false".data)
      (getStr args "clean".data "false".data)
      (getStr args "cleanFinal".data "false".data)
      (getStr args "ocrType".data "skip-text".data)
    (⟨r.text, false⟩, r.calls)
  else
    (⟨formatError ("Unknown tool: ".data ++ name), true⟩, [])

-- === TRANSPORT STUBS ===

/-- Transport whose post always resolves with an empty body. -/
def nullTransport : Transport :=
  fun _ _ => AxiosOutcome.ok []

/-- Transport whose post always resolves with the given body bytes (a
stubbed upstream answering 2xx with that body). -/
def okTransport (bs : List Nat) : Transport :=
  fun _ _ => AxiosOutcome.ok bs

/-- Transport modelling the axios default status validation for an
upstream that answers with the given status, status text and body text:
a 2xx status resolves with the body bytes (the code units of the body
text suffice for the properties stated here), anything else rejects with
an axios error carrying the response. -/
def upstreamRespond (status : Nat) (stext : List Char) (body : List Char) :
    Transport :=
  fun _ _ =>
    if 200 ≤ status ∧ status < 300 then
      AxiosOutcome.ok (body.map Char.toNat)
    else
      AxiosOutcome.err ⟨true, some ⟨status, stext, some body⟩,
        "Request failed with status code ".data ++ (Nat.repr status).data⟩

/-- Transport modelling a network-level axios failure (connection refused,
timeout, DNS failure): an axios error with no response attached, whose
message describes the underlying transport failure. -/
def netFailTransport (msg : List Char) : Transport :=
  fun _ _ => AxiosOutcome.err ⟨true, none, msg⟩

/-- Transport modelling a non-axios exception thrown inside the post. -/
def thrownTransport (msg : List Char) : Transport :=
  fun _ _ => AxiosOutcome.err ⟨false, none, msg⟩

-- === LEMMAS: BASE64 ROUND TRIP ===

theorem b64Val_b64Char_mem : ∀ n ∈ List.range 64, b64Val (b64Char n) = some n := by
  decide

theorem b64Val_b64Char {n : Nat} (h : n < 64) : b64Val (b64Char n) = some n :=
  b64Val_b64Char_mem n (List.mem_range.mpr h)

theorem b64Char_ne_pad {n : Nat} (h : n < 64) : b64Char n ≠ '=' := by
  intro he
  have h1 := b64Val_b64Char h
  rw [he] at h1
  simp [b64Val] at h1

theorem collectSextets_b64Char {n : Nat} (h : n < 64) (l : List Char) :
    collectSextets (b64Char n :: l) = n :: collectSextets l := by
  rw [collectSextets]
  rw [if_neg (b64Char_ne_pad h), b64Val_b64Char h]

theorem collectSextets_pad (l : List Char) :
    collectSextets ('=' :: l) = [] := by
  rw [collectSextets]
  rw [if_pos rfl]

theorem sextetsToBytes_b64Encode : ∀ bs : List Nat, (∀ b ∈ bs, b < 256) →
    sextetsToBytes (collectSextets (b64Encode bs)) = bs := by
  intro bs
  induction bs using b64Encode.induct with
  | case1 =>
      intro _
      simp [b64Encode, collectSextets, sextetsToBytes]
  | case2 a =>
      intro h
      have ha : a < 256 := h a (by simp)
      rw [b64Encode]
      rw [collectSextets_b64Char (by omega)]
      rw [collectSextets_b64Char (by omega)]
      rw [collectSextets_pad]
      rw [sextetsToBytes]
      simp only [List.cons.injEq, and_true]
      omega
  | case3 a b =>
      intro h
      have ha : a < 256 := h a (by simp)
      have hb : b < 256 := h b (by simp)
      rw [b64Encode]
      rw [collectSextets_b64Char (by omega)]
      rw [collectSextets_b64Char (by omega)]
      rw [collectSextets_b64Char (by omega)]
      rw [collectSextets_pad]
      rw [sextetsToBytes]
      simp only [List.cons.injEq, and_true]
      exact ⟨by omega, by omega⟩
  | case4 a b c rest ih =>
      intro h
      have ha : a < 256 := h a (by simp)
      have hb : b < 256 := h b (by simp)
      have hc : c < 256 := h c (by simp)
      rw [b64Encode]
      rw [collectSextets_b64Char (by omega)]
      rw [collectSextets_b64Char (by omega)]
      rw [collectSextets_b64Char (by omega)]
      rw [collectSextets_b64Char (by omega)]
      rw [sextetsToBytes]
      have hrest := ih (fun x hx => h x (by simp [hx]))
      rw [hrest]
      simp only [List.cons.injEq, and_true]
      exact ⟨by omega, by omega, by omega⟩

-- === LEMMAS: PREFIX STRIPPING ===

theorem takeWhile_append_all {p : Char → Bool} {m : List Char}
    (h : ∀ c ∈ m, p c = true) (l : List Char) :
    (m ++ l).takeWhile p = m ++ l.takeWhile p := by
  induction m with
  | nil => simp
  | cons c m ih =>
      rw [List.cons_append, List.takeWhile_cons_of_pos (h c (by simp))]
      rw [ih (fun x hx => h x (by simp [hx]))]
      simp

theorem dropWhile_append_all {p : Char → Bool} {m : List Char}
    (h : ∀ c ∈ m, p c = true) (l : List Char) :
    (m ++ l).dropWhile p = l.dropWhile p := by
  induction m with
  | nil => simp
  | cons c m ih =>
      rw [List.cons_append, List.dropWhile_cons_of_pos (h c (by simp))]
      exact ih (fun x hx => h x (by simp [hx]))

theorem take_append_length {l r : List Char} {n : Nat} (h : l.length = n) :
    (l ++ r).take n = l := by
  subst h
  simp

theorem drop_append_length {l r : List Char} {n : Nat} (h : l.length = n) :
    (l ++ r).drop n = r := by
  subst h
  simp

theorem stripDataUrl_of_shape {m r : List Char} (hm : m ≠ [])
    (hsemi : ∀ c ∈ m, c ≠ ';') :
    stripDataUrl ("data:".data ++ (m ++ (";base64,".data ++ r))) = r := by
  have hall : ∀ c ∈ m, (c != ';') = true := by
    intro c hc
    simpa using hsemi c hc
  have hpad : (";base64,".data : List Char) = ';' :: "base64,".data := by decide
  have h5 : ("data:".data ++ (m ++ (";base64,".data ++ r))).take 5 = "data:".data :=
    take_append_length (by decide)
  have hd5 : ("data:".data ++ (m ++ (";base64,".data ++ r))).drop 5 =
      m ++ (";base64,".data ++ r) :=
    drop_append_length (by decide)
  have htw : (m ++ (";base64,".data ++ r)).takeWhile (fun c => c != ';') = m := by
    rw [takeWhile_append_all hall, hpad, List.cons_append]
    rw [List.takeWhile_cons_of_neg (by decide)]
    simp
  have hdw : (m ++ (";base64,".data ++ r)).dropWhile (fun c => c != ';') =
      ";base64,".data ++ r := by
    rw [dropWhile_append_all hall, hpad, List.cons_append]
    rw [List.dropWhile_cons_of_neg (by decide)]
  have h8 : (";base64,".data ++ r).take 8 = ";base64,".data :=
    take_append_length (by decide)
  have hdrop8 : (";base64,".data ++ r).drop 8 = r :=
    drop_append_length (by decide)
  simp only [stripDataUrl, h5, hd5, htw, hdw, h8, hdrop8, hm, if_true, if_pos]
  simp only [if_false, if_neg (fun h : False => h)]

example : True := trivial

theorem stripDataUrl_eq_self {s : List Char}
    (h : ¬ ∃ m r, m ≠ [] ∧ (∀ c ∈ m, c ≠ ';') ∧
      s = "data:".data ++ (m ++ (";base64,".data ++ r))) :
    stripDataUrl s = s := by
  rw [stripDataUrl]
  dsimp only
  split_ifs with h5 hmime h8
  · rfl
  · exfalso
    apply h
    set m0 := (s.drop 5).takeWhile (fun c => c != ';') with hm0
    set a0 := (s.drop 5).dropWhile (fun c => c != ';') with ha0
    refine ⟨m0, a0.drop 8, hmime, ?_, ?_⟩
    · intro c hc
      rw [hm0] at hc
      have := List.mem_takeWhile_imp hc
      simpa using this
    · have hrest : m0 ++ a0 = s.drop 5 := List.takeWhile_append_dropWhile _ _
      have hafter : a0 = ";base64,".data ++ a0.drop 8 := by
        conv_lhs => rw [← List.take_append_drop 8 a0]
        rw [h8]
      calc s = s.take 5 ++ s.drop 5 := (List.take_append_drop 5 s).symm
        _ = "data:".data ++ (m0 ++ a0) := by rw [h5, hrest]
        _ = "data:".data ++ (m0 ++ (";base64,".data ++ a0.drop 8)) := by
              rw [← hafter]
  · rfl
  · rfl

-- === LEMMAS: IMAGE FORMAT DETECTION ===

theorem detectImageExt_of_shape {f r : List Char} (hf : f ≠ [])
    (hw : ∀ c ∈ f, isWordChar c = true) :
    detectImageExt ("data:image/".data ++ (f ++ (';' :: r))) = f := by
  have h11 : ("data:image/".data ++ (f ++ (';' :: r))).take 11 = "data:image/".data :=
    take_append_length (by decide)
  have hd11 : ("data:image/".data ++ (f ++ (';' :: r))).drop 11 = f ++ (';' :: r) :=
    drop_append_length (by decide)
  have htw : (f ++ (';' :: r)).takeWhile isWordChar = f := by
    rw [takeWhile_append_all hw]
    rw [List.takeWhile_cons_of_neg (by decide)]
    simp
  have hdw : (f ++ (';' :: r)).dropWhile isWordChar = ';' :: r := by
    rw [dropWhile_append_all hw]
    rw [List.dropWhile_cons_of_neg (by decide)]
  rw [detectImageExt]
  rw [if_pos h11]
  dsimp only
  rw [hd11, htw, hdw]
  rw [if_neg hf]
  rw [if_pos (by simp)]

theorem detectImageExt_png {s : List Char}
    (h : ¬ ∃ f r, f ≠ [] ∧ (∀ c ∈ f, isWordChar c = true) ∧
      s = "data:image/".data ++ (f ++ (';' :: r))) :
    detectImageExt s = "png".data := by
  rw [detectImageExt]
  dsimp only
  split_ifs with h11 hfmt h1
  · rfl
  · exfalso
    apply h
    set f0 := (s.drop 11).takeWhile isWordChar with hf0
    set a0 := (s.drop 11).dropWhile isWordChar with ha0
    refine ⟨f0, a0.drop 1, hfmt, ?_, ?_⟩
    · intro c hc
      rw [hf0] at hc
      exact List.mem_takeWhile_imp hc
    · have hrest : f0 ++ a0 = s.drop 11 := List.takeWhile_append_dropWhile _ _
      have hafter : a0 = ';' :: a0.drop 1 := by
        conv_lhs => rw [← List.take_append_drop 1 a0]
        rw [h1]
        rfl
      calc s = s.take 11 ++ s.drop 11 := (List.take_append_drop 11 s).symm
        _ = "data:image/".data ++ (f0 ++ a0) := by rw [h11, hrest]
        _ = "data:image/".data ++ (f0 ++ (';' :: a0.drop 1)) := by rw [← hafter]
  · rfl
  · rfl

-- === LEMMAS: VALIDATION AND LENIENT DECODING ===

theorem validateRequired_blank {v : List Char} (h : jsTrim v = []) (n : List Char) :
    validateRequired v n = Except.error (n ++ " is required".data) := by
  rw [validateRequired, if_pos (Or.inr h)]

theorem validateRequired_ok {v : List Char} (h : jsTrim v ≠ []) (n : List Char) :
    validateRequired v n = Except.ok (jsTrim v) := by
  rw [validateRequired, if_neg]
  intro hor
  rcases hor with h1 | h2
  · exact h (by rw [h1]; rfl)
  · exact h h2

theorem collectSextets_skip {j : List Char}
    (hj : ∀ c ∈ j, b64Val c = none ∧ c ≠ '=') (v : List Char) :
    collectSextets (j ++ v) = collectSextets v := by
  induction j with
  | nil => simp
  | cons c j ih =>
      have hc := hj c (by simp)
      rw [List.cons_append, collectSextets, if_neg hc.2, hc.1]
      exact ih (fun x hx => hj x (by simp [hx]))

theorem collectSextets_junk {j : List Char}
    (hj : ∀ c ∈ j, b64Val c = none ∧ c ≠ '=') :
    ∀ u v : List Char, collectSextets (u ++ (j ++ v)) = collectSextets (u ++ v) := by
  intro u
  induction u with
  | nil =>
      intro v
      simpa using collectSextets_skip hj v
  | cons c u ih =>
      intro v
      by_cases hc : c = '='
      · rw [List.cons_append, List.cons_append, collectSextets, if_pos hc,
          collectSextets, if_pos hc]
      · rcases hb : b64Val c with _ | w
        · rw [List.cons_append, List.cons_append, collectSextets, if_neg hc, hb,
            collectSextets, if_neg hc, hb]
          exact ih v
        · rw [List.cons_append, List.cons_append, collectSextets, if_neg hc, hb,
            collectSextets, if_neg hc, hb, ih v]

-- === LEMMA: FULL ROUND TRIP ===

theorem roundTrip {bs : List Nat} (hbytes : ∀ b ∈ bs, b < 256) {m : List Char}
    (hm : m ≠ []) (hsemi : ∀ c ∈ m, c ≠ ';') :
    base64ToBuffer (bufferToBase64DataUrl bs m) = bs := by
  rw [bufferToBase64DataUrl, base64ToBuffer]
  rw [List.append_assoc, List.append_assoc]
  rw [stripDataUrl_of_shape hm hsemi]
  rw [nodeBase64Decode]
  exact sextetsToBytes_b64Encode bs hbytes

-- === LEMMAS: TEXT CONTAINMENT ===

theorem infix_required (name : List Char) :
    name <:+: formatError (name ++ " is required".data) := by
  refine ⟨"❌ Error: ".data, " is required".data, ?_⟩
  rw [formatError, List.append_assoc]

-- === CLAIM THEOREMS ===

/-- C1: for every byte sequence B and for both the default media type and
any explicit media type M, decoding the data URL produced by encoding B
(bufferToBase64DataUrl followed by base64ToBuffer) yields exactly B.  A
media type in the sense of the data URL grammar is nonempty and free of
semicolons; the hypotheses on M state exactly that (a string with a
semicolon is a media type together with parameters, not a media type).
The byte bound states that B is a byte sequence. -/
theorem c1_encode_decode_round_trip :
    (∀ bs : List Nat, (∀ b ∈ bs, b < 256) →
      base64ToBuffer (bufferToBase64DataUrl bs "application/pdf".data) = bs) ∧
    (∀ bs : List Nat, (∀ b ∈ bs, b < 256) → ∀ m : List Char, m ≠ [] →
      (∀ c ∈ m, c ≠ ';') → base64ToBuffer (bufferToBase64DataUrl bs m) = bs) := by
  constructor
  · intro bs h
    exact roundTrip h (by decide) (by decide)
  · intro bs h m hm hsemi
    exact roundTrip h hm hsemi

/-- Witness for C1 at a concrete byte sequence and explicit media type. -/
theorem c1_encode_decode_round_trip_witness :
    base64ToBuffer (bufferToBase64DataUrl [0, 77, 255] "image/png".data) = [0, 77, 255] :=
  c1_encode_decode_round_trip.2 [0, 77, 255] (by decide) "image/png".data
    (by decide) (by decide)

/-- C9: the decode operation strips at most one leading prefix, and only
one of the exact shape data:mime;base64, where the mime part is nonempty
and contains no semicolon; every other input string (including data URLs
whose media type carries parameters) is passed to the base64 decoder
unchanged, and decoding is a total function that never raises an error
(its value is always the lenient byte reconstruction). -/
theorem c9_strip_characterization :
    (∀ m r : List Char, m ≠ [] → (∀ c ∈ m, c ≠ ';') →
      stripDataUrl ("data:".data ++ (m ++ (";base64,".data ++ r))) = r) ∧
    (∀ s : List Char, (¬ ∃ m r, m ≠ [] ∧ (∀ c ∈ m, c ≠ ';') ∧
      s = "data:".data ++ (m ++ (";base64,".data ++ r))) → stripDataUrl s = s) ∧
    (∀ s : List Char, base64ToBuffer s = sextetsToBytes (collectSextets (stripDataUrl s))) ∧
    stripDataUrl "data:text/plain;charset=utf-8;base64,QQ==".data =
      "data:text/plain;charset=utf-8;base64,QQ==".data :=
  ⟨fun _ _ hm hs => stripDataUrl_of_shape hm hs,
   fun _ h => stripDataUrl_eq_self h,
   fun _ => rfl,
   by decide⟩

/-- Witness for C9 at a concrete data URL. -/
theorem c9_strip_characterization_witness :
    stripDataUrl ("data:".data ++ ("image/png".data ++ (";base64,".data ++ "QQ==".data))) =
      "QQ==".data :=
  c9_strip_characterization.1 "image/png".data "QQ==".data (by decide) (by decide)

/-- C5 counterexample: the string of four exclamation marks is not valid
base64 (the spec-side strict decoder rejects it), yet the decode
operation of the source does not fail: it returns a byte sequence (the
empty one), refuting the claim that invalid base64 fails with a
DecodeError rather than returning bytes. -/
theorem c5_strict_decode_counterexample :
    specValidBase64 "!!!!".data = false ∧
    base64ToBufferSpec "!!!!".data = none ∧
    base64ToBuffer "!!!!".data = [] := by
  refine ⟨by decide, by decide, by decide⟩

/-- C5 amended: the decode operation never fails; it decodes leniently in
the manner of the Node Buffer: characters outside the base64 alphabet
(other than the padding character, which stops decoding) are skipped, so
inserting such characters anywhere does not change the decoded bytes,
and a wholly invalid input decodes to the empty byte sequence. -/
theorem c5_decode_lenient :
    (∀ j : List Char, (∀ c ∈ j, b64Val c = none ∧ c ≠ '=') →
      ∀ u v : List Char,
        nodeBase64Decode (u ++ (j ++ v)) = nodeBase64Decode (u ++ v)) ∧
    base64ToBuffer "!!!!".data = [] := by
  constructor
  · intro j hj u v
    rw [nodeBase64Decode, nodeBase64Decode, collectSextets_junk hj]
  · decide

/-- Witness for the amended C5 at concrete inputs. -/
theorem c5_decode_lenient_witness :
    nodeBase64Decode ("QU".data ++ ("!*".data ++ "JD".data)) =
      nodeBase64Decode ("QU".data ++ "JD".data) :=
  c5_decode_lenient.1 "!*".data (by decide) "QU".data "JD".data

/-- C2: for every operation handler with a required string argument,
invoking the handler with that argument absent, empty, or whitespace-only
(all of which are exactly the values whose JavaScript trim is empty,
absence being defaulted to the empty string by the dispatcher) returns a
failure text containing the field name of that argument, and no call to
the API gateway client is made (the recorded call list is empty).  For
the handlers whose required argument is validated second, the first
required argument is assumed present. -/
theorem c2_required_validation :
    (∀ (t : Transport) (pf pn : List Char), jsTrim pf = [] →
      (splitPDF t pf pn).calls = [] ∧ "pdfFile".data <:+: (splitPDF t pf pn).text) ∧
    (∀ (t : Transport) (pf pn : List Char), jsTrim pf ≠ [] → jsTrim pn = [] →
      (splitPDF t pf pn).calls = [] ∧ "pageNumbers".data <:+: (splitPDF t pf pn).text) ∧
    (∀ (t : Transport) (pf lvl : List Char), jsTrim pf = [] →
      (compressPDF t pf lvl).calls = [] ∧ "pdfFile".data <:+: (compressPDF t pf lvl).text) ∧
    (∀ (t : Transport) (pf fmt dpi : List Char), jsTrim pf = [] →
      (convertPDFToImages t pf fmt dpi).calls = [] ∧
      "pdfFile".data <:+: (convertPDFToImages t pf fmt dpi).text) ∧
    (∀ (t : Transport) (pf ang pn : List Char), jsTrim pf = [] →
      (rotatePDF t pf ang pn).calls = [] ∧ "pdfFile".data <:+: (rotatePDF t pf ang pn).text) ∧
    (∀ (t : Transport) (pf wm fs op rot : List Char), jsTrim pf = [] →
      (addWatermark t pf wm fs op rot).calls = [] ∧
      "pdfFile".data <:+: (addWatermark t pf wm fs op rot).text) ∧
    (∀ (t : Transport) (pf wm fs op rot : List Char), jsTrim pf ≠ [] → jsTrim wm = [] →
      (addWatermark t pf wm fs op rot).calls = [] ∧
      "watermarkText".data <:+: (addWatermark t pf wm fs op rot).text) ∧
    (∀ (t : Transport) (pf pr : List Char), jsTrim pf = [] →
      (removePages t pf pr).calls = [] ∧ "pdfFile".data <:+: (removePages t pf pr).text) ∧
    (∀ (t : Transport) (pf pr : List Char), jsTrim pf ≠ [] → jsTrim pr = [] →
      (removePages t pf pr).calls = [] ∧ "pagesToRemove".data <:+: (removePages t pf pr).text) ∧
    (∀ (t : Transport) (pf fmt : List Char), jsTrim pf = [] →
      (extractImages t pf fmt).calls = [] ∧ "pdfFile".data <:+: (extractImages t pf fmt).text) ∧
    (∀ (t : Transport) (pf lg sc dk cl cf oc : List Char), jsTrim pf = [] →
      (ocrPDF t pf lg sc dk cl cf oc).calls = [] ∧
      "pdfFile".data <:+: (ocrPDF t pf lg sc dk cl cf oc).text) := by
  refine ⟨?_, ?_, ?_, ?_, ?_, ?_, ?_, ?_, ?_, ?_, ?_⟩
  · intro t pf pn h
    unfold splitPDF
    rw [validateRequired_blank h]
    exact ⟨rfl, infix_required _⟩
  · intro t pf pn hpf hpn
    unfold splitPDF
    rw [validateRequired_ok hpf, validateRequired_blank hpn]
    exact ⟨rfl, infix_required _⟩
  · intro t pf lvl h
    unfold compressPDF
    rw [validateRequired_blank h]
    exact ⟨rfl, infix_required _⟩
  · intro t pf fmt dpi h
    unfold convertPDFToImages
    rw [validateRequired_blank h]
    exact ⟨rfl, infix_required _⟩
  · intro t pf ang pn h
    unfold rotatePDF
    rw [validateRequired_blank h]
    exact ⟨rfl, infix_required _⟩
  · intro t pf wm fs op rot h
    unfold addWatermark
    rw [validateRequired_blank h]
    exact ⟨rfl, infix_required _⟩
  · intro t pf wm fs op rot hpf hwm
    unfold addWatermark
    rw [validateRequired_ok hpf, validateRequired_blank hwm]
    exact ⟨rfl, infix_required _⟩
  · intro t pf pr h
    unfold removePages
    rw [validateRequired_blank h]
    exact ⟨rfl, infix_required _⟩
  · intro t pf pr hpf hpr
    unfold removePages
    rw [validateRequired_ok hpf, validateRequired_blank hpr]
    exact ⟨rfl, infix_required _⟩
  · intro t pf fmt h
    unfold extractImages
    rw [validateRequired_blank h]
    exact ⟨rfl, infix_required _⟩
  · intro t pf lg sc dk cl cf oc h
    unfold ocrPDF
    rw [validateRequired_blank h]
    exact ⟨rfl, infix_required _⟩

/-- Witness for C2: the split handler invoked with an empty document
argument, and the watermark handler invoked with a whitespace-only
watermark text, issue no call and name the missing field. -/
theorem c2_required_validation_witness :
    ((splitPDF nullTransport [] "1,2".data).calls = [] ∧
      "pdfFile".data <:+: (splitPDF nullTransport [] "1,2".data).text) ∧
    ((addWatermark nullTransport "QQ==".data "  ".data "30".data "0.5".data "45".data).calls = [] ∧
      "watermarkText".data <:+:
        (addWatermark nullTransport "QQ==".data "  ".data "30".data "0.5".data "45".data).text) :=
  ⟨c2_required_validation.1 nullTransport [] "1,2".data (by decide),
   c2_required_validation.2.2.2.2.2.2.1 nullTransport "QQ==".data "  ".data
     "30".data "0.5".data "45".data (by decide) (by decide)⟩

-- === LEMMAS: API ERROR EVALUATION ===

theorem isInfix_intro {x s t l : List Char} (h : l = s ++ (x ++ t)) : x <:+: l :=
  ⟨s, t, by rw [List.append_assoc]; exact h.symm⟩

theorem callStirlingAPI_upstream_err (status : Nat) (stext body : List Char)
    (h : ¬ (200 ≤ status ∧ status < 300)) (h0 : status ≠ 0)
    (ep : List Char) (form : List FormPart) :
    callStirlingAPI (upstreamRespond status stext body) ep form =
      Except.error ("Stirling PDF API returned ".data ++ (Nat.repr status).data ++
        ": ".data ++ (if body = [] then
          (if stext = [] then "Unknown Error".data else stext) else body)) := by
  rw [callStirlingAPI]
  unfold upstreamRespond
  rw [if_neg h]
  simp [h0]

theorem callStirlingAPI_netfail (msg : List Char) (ep : List Char) (form : List FormPart) :
    callStirlingAPI (netFailTransport msg) ep form =
      Except.error "Stirling PDF API returned unknown: Unknown Error".data := by
  rw [callStirlingAPI]
  unfold netFailTransport
  simp

theorem callStirlingAPI_thrown (msg : List Char) (ep : List Char) (form : List FormPart) :
    callStirlingAPI (thrownTransport msg) ep form = Except.error msg := by
  rw [callStirlingAPI]
  unfold thrownTransport
  simp

theorem compressPDF_err {t : Transport} {pf lvl msg : List Char} (hpf : jsTrim pf ≠ [])
    (herr : callStirlingAPI t "/api/v1/misc/compress-pdf".data
      [FormPart.file "fileInput".data (base64ToBuffer pf) "input.pdf".data,
       FormPart.field "optimizeLevel".data lvl,
       FormPart.field "fastWebView".data "false".data] = Except.error msg) :
    (compressPDF t pf lvl).text = formatError msg := by
  unfold compressPDF
  rw [validateRequired_ok hpf]
  dsimp only
  rw [herr]

/-- C3 counterexample: a stubbed upstream answering status 500 with status
text Internal Server Error and body boom makes the handler return a
failure text that carries the status and the body but not the status
text, refuting the part of the claim that says the failure carries the
status line alongside the body. -/
theorem c3_upstream_error_counterexample :
    (compressPDF (upstreamRespond 500 "Internal Server Error".data "boom".data)
      "QQ==".data "2".data).text =
      "❌ Error: Stirling PDF API returned 500: boom".data ∧
    ¬ ("Internal Server Error".data <:+:
      (compressPDF (upstreamRespond 500 "Internal Server Error".data "boom".data)
        "QQ==".data "2".data).text) :=
  ⟨by decide, by decide⟩

/-- C3 amended: when the upstream responds with any non-2xx status (an
HTTP status is nonzero; zero is the falsy fallback of the source), the
handler returns a failure text (it does not throw) carrying the numeric
status, and the response body decoded as text when that body is
nonempty; the status reason appears only when the body is empty.  In
particular status 500 with body boom yields a failure text containing
both the digits of 500 and the word boom. -/
theorem c3_upstream_error_reporting :
    ∀ (status : Nat) (stext body pf lvl : List Char),
      ¬ (200 ≤ status ∧ status < 300) → status ≠ 0 → jsTrim pf ≠ [] →
      ((Nat.repr status).data <:+:
        (compressPDF (upstreamRespond status stext body) pf lvl).text) ∧
      (body ≠ [] →
        body <:+: (compressPDF (upstreamRespond status stext body) pf lvl).text) ∧
      (body = [] → stext ≠ [] →
        stext <:+: (compressPDF (upstreamRespond status stext body) pf lvl).text) := by
  intro status stext body pf lvl h2 h0 hpf
  have htext := compressPDF_err hpf (callStirlingAPI_upstream_err status stext body h2 h0
    "/api/v1/misc/compress-pdf".data
    [FormPart.file "fileInput".data (base64ToBuffer pf) "input.pdf".data,
     FormPart.field "optimizeLevel".data lvl,
     FormPart.field "fastWebView".data "false".data])
  rw [htext, formatError]
  refine ⟨?_, ?_, ?_⟩
  · refine ⟨"❌ Error: ".data ++ "Stirling PDF API returned ".data,
      ": ".data ++ (if body = [] then
        (if stext = [] then "Unknown Error".data else stext) else body), ?_⟩
    simp [List.append_assoc]
  · intro hbody
    rw [if_neg hbody]
    refine ⟨"❌ Error: ".data ++ "Stirling PDF API returned ".data ++
      (Nat.repr status).data ++ ": ".data, [], ?_⟩
    simp [List.append_assoc]
  · intro hbody hstext
    rw [if_pos hbody, if_neg hstext]
    refine ⟨"❌ Error: ".data ++ "Stirling PDF API returned ".data ++
      (Nat.repr status).data ++ ": ".data, [], ?_⟩
    simp [List.append_assoc]

/-- Witness for the amended C3 at status 500 with body boom. -/
theorem c3_upstream_error_reporting_witness :
    ((Nat.repr 500).data <:+:
      (compressPDF (upstreamRespond 500 "Internal Server Error".data "boom".data)
        "QQ==".data "2".data).text) ∧
    ("boom".data ≠ [] →
      "boom".data <:+:
        (compressPDF (upstreamRespond 500 "Internal Server Error".data "boom".data)
          "QQ==".data "2".data).text) ∧
    ("boom".data = [] → "Internal Server Error".data ≠ [] →
      "Internal Server Error".data <:+:
        (compressPDF (upstreamRespond 500 "Internal Server Error".data "boom".data)
          "QQ==".data "2".data).text) :=
  c3_upstream_error_reporting 500 "Internal Server Error".data "boom".data
    "QQ==".data "2".data (by decide) (by decide) (by decide)

/-- C4 counterexample: a network-level axios failure carrying the message
connect ECONNREFUSED 127.0.0.1:8080 produces the fixed failure text with
the word unknown; the description of the underlying transport failure is
not included, refuting the claim that the failure message includes its
cause. -/
theorem c4_transport_cause_counterexample :
    (compressPDF (netFailTransport "connect ECONNREFUSED 127.0.0.1:8080".data)
      "QQ==".data "2".data).text =
      "❌ Error: Stirling PDF API returned unknown: Unknown Error".data ∧
    ¬ ("ECONNREFUSED".data <:+:
      (compressPDF (netFailTransport "connect ECONNREFUSED 127.0.0.1:8080".data)
        "QQ==".data "2".data).text) :=
  ⟨by decide, by decide⟩

/-- C4 amended: on a network-level failure (an axios error with no
response attached) the handler returns, without hanging, the fixed
failure text naming an unknown status — the same text whatever the
underlying cause message was, so the cause is lost; a non-axios
exception, by contrast, is rethrown and surfaces with its own message. -/
theorem c4_transport_failure_text :
    (∀ (msg pf lvl : List Char), jsTrim pf ≠ [] →
      (compressPDF (netFailTransport msg) pf lvl).text =
        "❌ Error: Stirling PDF API returned unknown: Unknown Error".data) ∧
    (∀ (msg pf lvl : List Char), jsTrim pf ≠ [] →
      (compressPDF (thrownTransport msg) pf lvl).text = "❌ Error: ".data ++ msg) := by
  constructor
  · intro msg pf lvl hpf
    have htext := compressPDF_err hpf (callStirlingAPI_netfail msg
      "/api/v1/misc/compress-pdf".data
      [FormPart.file "fileInput".data (base64ToBuffer pf) "input.pdf".data,
       FormPart.field "optimizeLevel".data lvl,
       FormPart.field "fastWebView".data "false".data])
    rw [htext]
    decide
  · intro msg pf lvl hpf
    have htext := compressPDF_err hpf (callStirlingAPI_thrown msg
      "/api/v1/misc/compress-pdf".data
      [FormPart.file "fileInput".data (base64ToBuffer pf) "input.pdf".data,
       FormPart.field "optimizeLevel".data lvl,
       FormPart.field "fastWebView".data "false".data])
    rw [htext, formatError]

/-- Witness for the amended C4 at a concrete cause message. -/
theorem c4_transport_failure_text_witness :
    (compressPDF (netFailTransport "getaddrinfo ENOTFOUND stirling.example".data)
      "QQ==".data "2".data).text =
      "❌ Error: Stirling PDF API returned unknown: Unknown Error".data :=
  c4_transport_failure_text.1 "getaddrinfo ENOTFOUND stirling.example".data
    "QQ==".data "2".data (by decide)

-- === LEMMAS: SUCCESS PATH ===

theorem callStirlingAPI_ok (bs : List Nat) (ep : List Char) (form : List FormPart) :
    callStirlingAPI (okTransport bs) ep form = Except.ok bs := rfl

/-- C6: merge with fewer than two document inputs fails with the
cardinality error and issues no network call, and with exactly two inputs
issues exactly one network call whose multipart body carries exactly the
two binary parts in the provided order (followed by the sort field);
images to document with zero inputs fails with the cardinality error and
issues no network call, and with one input issues exactly one network
call carrying exactly one binary part (followed by the option fields). -/
theorem c6_cardinality_and_parts :
    (∀ (t : Transport) (files : List (List Char)) (st : List Char),
      files.length < 2 →
      mergePDFs t files st =
        ⟨formatError "At least 2 PDF files are required for merging".data, []⟩) ∧
    (∀ (t : Transport) (p1 p2 st : List Char),
      (mergePDFs t [p1, p2] st).calls =
        [("/api/v1/general/merge-pdfs".data,
          [FormPart.file "fileInput".data (base64ToBuffer p1) "file1.pdf".data,
           FormPart.file "fileInput".data (base64ToBuffer p2) "file2.pdf".data,
           FormPart.field "sortType".data st])]) ∧
    (∀ (t : Transport) (fit color : List Char),
      convertImagesToPDF t [] fit color =
        ⟨formatError "At least 1 image file is required".data, []⟩) ∧
    (∀ (t : Transport) (img fit color : List Char),
      (convertImagesToPDF t [img] fit color).calls =
        [("/api/v1/convert/img/pdf".data,
          [FormPart.file "fileInput".data (base64ToBuffer img)
            ("image1.".data ++ detectImageExt img),
           FormPart.field "fitOption".data fit,
           FormPart.field "colorType".data color,
           FormPart.field "autoRotate".data "false".data])]) := by
  refine ⟨?_, ?_, ?_, ?_⟩
  · intro t files st h
    unfold mergePDFs
    rw [if_pos h]
  · intro t p1 p2 st
    unfold mergePDFs
    rw [if_neg (by simp)]
    have hf1 : ("file".data ++ (Nat.repr (0 + 1)).data ++ ".pdf".data : List Char) =
        "file1.pdf".data := by decide
    have hf2 : ("file".data ++ (Nat.repr (0 + 1 + 1)).data ++ ".pdf".data : List Char) =
        "file2.pdf".data := by decide
    have h1 : pdfParts 0 [p1, p2] =
        [FormPart.file "fileInput".data (base64ToBuffer p1) "file1.pdf".data,
         FormPart.file "fileInput".data (base64ToBuffer p2) "file2.pdf".data] := by
      rw [pdfParts, pdfParts, pdfParts, hf1, hf2]
    dsimp only
    rw [h1]
    split
    · rfl
    · rfl
  · intro t fit color
    unfold convertImagesToPDF
    rw [if_pos (by simp)]
  · intro t img fit color
    unfold convertImagesToPDF
    rw [if_neg (by simp)]
    have hf : ("image".data ++ (Nat.repr (0 + 1)).data ++ ".".data : List Char) =
        "image1.".data := by decide
    have h1 : imageParts 0 [img] =
        [FormPart.file "fileInput".data (base64ToBuffer img)
          ("image1.".data ++ detectImageExt img)] := by
      rw [imageParts, imageParts, hf]
    dsimp only
    rw [h1]
    split
    · rfl
    · rfl

/-- Witness for C6 at a single-element merge input (the cardinality
failure) — the remaining conjuncts are free of hypotheses. -/
theorem c6_cardinality_and_parts_witness :
    mergePDFs nullTransport ["QQ==".data] "orderProvided".data =
      ⟨formatError "At least 2 PDF files are required for merging".data, []⟩ :=
  c6_cardinality_and_parts.1 nullTransport ["QQ==".data] "orderProvided".data
    (by decide)

/-- C7: on success, exactly the split, extract-images and
document-to-images handlers encode their result with the archive media
type (application/zip) in the returned data URL, and every other handler
encodes its result with the single document media type (application/pdf);
stated for a stubbed upstream resolving with arbitrary body bytes and
arbitrary valid arguments, as a suffix of the success text. -/
theorem c7_output_media_types :
    (∀ (bs : List Nat) (pf pn : List Char), jsTrim pf ≠ [] → jsTrim pn ≠ [] →
      bufferToBase64DataUrl bs "application/zip".data <:+
        (splitPDF (okTransport bs) pf pn).text) ∧
    (∀ (bs : List Nat) (pf fmt dpi : List Char), jsTrim pf ≠ [] →
      bufferToBase64DataUrl bs "application/zip".data <:+
        (convertPDFToImages (okTransport bs) pf fmt dpi).text) ∧
    (∀ (bs : List Nat) (pf fmt : List Char), jsTrim pf ≠ [] →
      bufferToBase64DataUrl bs "application/zip".data <:+
        (extractImages (okTransport bs) pf fmt).text) ∧
    (∀ (bs : List Nat) (files : List (List Char)) (st : List Char),
      ¬ files.length < 2 →
      bufferToBase64DataUrl bs "application/pdf".data <:+
        (mergePDFs (okTransport bs) files st).text) ∧
    (∀ (bs : List Nat) (pf lvl : List Char), jsTrim pf ≠ [] →
      bufferToBase64DataUrl bs "application/pdf".data <:+
        (compressPDF (okTransport bs) pf lvl).text) ∧
    (∀ (bs : List Nat) (pf ang pn : List Char), jsTrim pf ≠ [] →
      bufferToBase64DataUrl bs "application/pdf".data <:+
        (rotatePDF (okTransport bs) pf ang pn).text) ∧
    (∀ (bs : List Nat) (pf wm fs op rot : List Char), jsTrim pf ≠ [] →
      jsTrim wm ≠ [] →
      bufferToBase64DataUrl bs "application/pdf".data <:+
        (addWatermark (okTransport bs) pf wm fs op rot).text) ∧
    (∀ (bs : List Nat) (pf pr : List Char), jsTrim pf ≠ [] → jsTrim pr ≠ [] →
      bufferToBase64DataUrl bs "application/pdf".data <:+
        (removePages (okTransport bs) pf pr).text) ∧
    (∀ (bs : List Nat) (files : List (List Char)) (fit color : List Char),
      ¬ files.length < 1 →
      bufferToBase64DataUrl bs "application/pdf".data <:+
        (convertImagesToPDF (okTransport bs) files fit color).text) ∧
    (∀ (bs : List Nat) (pf lg sc dk cl cf oc : List Char), jsTrim pf ≠ [] →
      bufferToBase64DataUrl bs "application/pdf".data <:+
        (ocrPDF (okTransport bs) pf lg sc dk cl cf oc).text) := by
  refine ⟨?_, ?_, ?_, ?_, ?_, ?_, ?_, ?_, ?_, ?_⟩
  · intro bs pf pn hpf hpn
    unfold splitPDF
    rw [validateRequired_ok hpf, validateRequired_ok hpn]
    dsimp only
    rw [callStirlingAPI_ok]
    exact ⟨_, rfl⟩
  · intro bs pf fmt dpi hpf
    unfold convertPDFToImages
    rw [validateRequired_ok hpf]
    dsimp only
    rw [callStirlingAPI_ok]
    exact ⟨_, rfl⟩
  · intro bs pf fmt hpf
    unfold extractImages
    rw [validateRequired_ok hpf]
    dsimp only
    rw [callStirlingAPI_ok]
    exact ⟨_, rfl⟩
  · intro bs files st h2
    unfold mergePDFs
    rw [if_neg h2]
    dsimp only
    rw [callStirlingAPI_ok]
    exact ⟨_, rfl⟩
  · intro bs pf lvl hpf
    unfold compressPDF
    rw [validateRequired_ok hpf]
    dsimp only
    rw [callStirlingAPI_ok]
    exact ⟨_, rfl⟩
  · intro bs pf ang pn hpf
    unfold rotatePDF
    rw [validateRequired_ok hpf]
    dsimp only
    rw [callStirlingAPI_ok]
    exact ⟨_, rfl⟩
  · intro bs pf wm fs op rot hpf hwm
    unfold addWatermark
    rw [validateRequired_ok hpf, validateRequired_ok hwm]
    dsimp only
    rw [callStirlingAPI_ok]
    exact ⟨_, rfl⟩
  · intro bs pf pr hpf hpr
    unfold removePages
    rw [validateRequired_ok hpf, validateRequired_ok hpr]
    dsimp only
    rw [callStirlingAPI_ok]
    exact ⟨_, rfl⟩
  · intro bs files fit color h1
    unfold convertImagesToPDF
    rw [if_neg h1]
    dsimp only
    rw [callStirlingAPI_ok]
    exact ⟨_, rfl⟩
  · intro bs pf lg sc dk cl cf oc hpf
    unfold ocrPDF
    rw [validateRequired_ok hpf]
    dsimp only
    rw [callStirlingAPI_ok]
    exact ⟨_, rfl⟩

/-- Witness for C7 at a concrete split invocation (archive media type)
and a concrete compress invocation (document media type). -/
theorem c7_output_media_types_witness :
    (bufferToBase64DataUrl [1, 2, 3] "application/zip".data <:+
      (splitPDF (okTransport [1, 2, 3]) "QQ==".data "2".data).text) ∧
    (bufferToBase64DataUrl [1, 2, 3] "application/pdf".data <:+
      (compressPDF (okTransport [1, 2, 3]) "QQ==".data "2".data).text) :=
  ⟨c7_output_media_types.1 [1, 2, 3] "QQ==".data "2".data (by decide) (by decide),
   c7_output_media_types.2.2.2.2.1 [1, 2, 3] "QQ==".data "2".data (by decide)⟩

/-- C8: for every operation name matching none of the ten registered
handlers, the dispatcher returns an error-flagged envelope whose text
contains the unrecognized name, issues no API call, and no exception
propagates (the dispatcher is a total function returning that value). -/
theorem c8_unknown_tool :
    ∀ (t : Transport) (name : List Char) (args : ArgMap),
      name ∉ toolNames →
      handleCallTool t name args =
        (⟨"❌ Error: ".data ++ ("Unknown tool: ".data ++ name), true⟩, []) ∧
      name <:+: (handleCallTool t name args).1.text ∧
      (handleCallTool t name args).1.isError = true ∧
      (handleCallTool t name args).2 = [] := by
  intro t name args h
  simp only [toolNames, List.mem_cons, List.not_mem_nil, or_false, not_or] at h
  obtain ⟨h1, h2, h3, h4, h5, h6, h7, h8, h9, h10⟩ := h
  have hmain : handleCallTool t name args =
      (⟨"❌ Error: ".data ++ ("Unknown tool: ".data ++ name), true⟩, []) := by
    unfold handleCallTool
    rw [if_neg h1, if_neg h2, if_neg h3, if_neg h4, if_neg h5, if_neg h6,
      if_neg h7, if_neg h8, if_neg h9, if_neg h10]
    rfl
  refine ⟨hmain, ?_, ?_, ?_⟩
  · rw [hmain]
    exact ⟨"❌ Error: ".data ++ "Unknown tool: ".data, [], by simp⟩
  · rw [hmain]
  · rw [hmain]

/-- Witness for C8 at a concrete unregistered name. -/
theorem c8_unknown_tool_witness :
    handleCallTool nullTransport "delete_everything".data (fun _ => none) =
      (⟨"❌ Error: ".data ++ ("Unknown tool: ".data ++ "delete_everything".data), true⟩, []) ∧
    "delete_everything".data <:+:
      (handleCallTool nullTransport "delete_everything".data (fun _ => none)).1.text ∧
    (handleCallTool nullTransport "delete_everything".data (fun _ => none)).1.isError = true ∧
    (handleCallTool nullTransport "delete_everything".data (fun _ => none)).2 = [] :=
  c8_unknown_tool nullTransport "delete_everything".data (fun _ => none) (by decide)

-- === LEMMAS: IMAGE PART INDEXING ===

theorem imageParts_getElem :
    ∀ (files : List (List Char)) (start i : Nat) (h : i < files.length),
      (imageParts start files)[i]? = some (FormPart.file "fileInput".data
        (base64ToBuffer files[i])
        ("image".data ++ (Nat.repr (start + i + 1)).data ++ ".".data ++
          detectImageExt files[i])) := by
  intro files
  induction files with
  | nil =>
      intro start i h
      exact absurd h (by simp)
  | cons f fs ih =>
      intro start i h
      cases i with
      | zero =>
          simp [imageParts, List.getElem?_cons_zero, List.getElem_cons_zero]
      | succ i =>
          have h2 : i < fs.length := by simpa using h
          rw [imageParts]
          rw [List.getElem?_cons_succ]
          rw [ih (start + 1) i h2]
          have harith : start + 1 + i + 1 = start + (i + 1) + 1 := by omega
          rw [harith]
          simp [List.getElem_cons_succ]

/-- C10: in the images-to-document handler, a nonempty input list leads to
exactly one API call whose form starts with the image file parts, and the
multipart filename of the part at zero-based index i is image(i+1).ext,
where ext is the format captured from a leading data:image/fmt; prefix of
that input (a nonempty run of word characters directly followed by a
semicolon) when such a prefix is present, and png otherwise. -/
theorem c10_image_part_filenames :
    (∀ (t : Transport) (files : List (List Char)) (fit color : List Char),
      files ≠ [] →
      (convertImagesToPDF t files fit color).calls =
        [("/api/v1/convert/img/pdf".data, imageParts 0 files ++
          [FormPart.field "fitOption".data fit,
           FormPart.field "colorType".data color,
           FormPart.field "autoRotate".data "false".data])]) ∧
    (∀ (files : List (List Char)) (i : Nat) (h : i < files.length),
      (imageParts 0 files)[i]? = some (FormPart.file "fileInput".data
        (base64ToBuffer files[i])
        ("image".data ++ (Nat.repr (i + 1)).data ++ ".".data ++
          detectImageExt files[i]))) ∧
    (∀ f r : List Char, f ≠ [] → (∀ c ∈ f, isWordChar c = true) →
      detectImageExt ("data:image/".data ++ (f ++ (';' :: r))) = f) ∧
    (∀ s : List Char, (¬ ∃ f r, f ≠ [] ∧ (∀ c ∈ f, isWordChar c = true) ∧
      s = "data:image/".data ++ (f ++ (';' :: r))) →
      detectImageExt s = "png".data) := by
  refine ⟨?_, ?_, fun f r hf hw => detectImageExt_of_shape hf hw,
    fun s h => detectImageExt_png h⟩
  · intro t files fit color hne
    unfold convertImagesToPDF
    rw [if_neg (by cases files with
      | nil => exact absurd rfl hne
      | cons f fs => simp)]
    dsimp only
    split
    · rfl
    · rfl
  · intro files i h
    rw [imageParts_getElem files 0 i h]
    rw [Nat.zero_add]

/-- Witness for C10: the second image part of a concrete two-image call
is named with index 2 and the detected jpeg format. -/
theorem c10_image_part_filenames_witness :
    (imageParts 0 ["QQ==".data, "data:image/jpeg;base64,QQ==".data])[1]? =
      some (FormPart.file "fileInput".data
        (base64ToBuffer "data:image/jpeg;base64,QQ==".data)
        ("image".data ++ (Nat.repr 2).data ++ ".".data ++
          detectImageExt "data:image/jpeg;base64,QQ==".data)) :=
  c10_image_part_filenames.2.1 ["QQ==".data, "data:image/jpeg;base64,QQ==".data]
    1 (by decide)
